import Mathlib

/-!
Shallow embedding of the dhanya_builders_backend service (Express + Mongoose).
Ids are `Nat`, JS numbers are `ℚ`, optional document fields are `Option _`,
HTTP error responses are the `Err` type.  Each route handler is embedded as a
Lean function over the explicit state it reads and writes.
-/

namespace Dhanya

/-- A dynamically typed JS value, needed where the code compares a Mongo
`ObjectId` with a query string using strict JS equality (`Array.includes`). -/
inductive JsVal where
  | objectId (n : Nat)
  | str (s : String)
deriving DecidableEq, Repr

inductive Role where
  | admin
  | supervisor
deriving DecidableEq, Repr

/-- The authenticated principal attached by the `auth` middleware. -/
structure User where
  id : Nat
  role : Role
deriving DecidableEq, Repr

/-- Project document (fields the embedded handlers read). -/
structure Project where
  id : Nat
  supervisorId : Option Nat
deriving DecidableEq, Repr

/-- Worker document (fields the embedded handlers read). -/
structure Worker where
  id : Nat
  name : String
  projectId : Option Nat
  dailyWage : ℚ
deriving DecidableEq, Repr

/-- Material status enum from `models/Material.js`. -/
inductive MStatus where
  | pending
  | approved
  | received
  | requested
  | rejected
  | used
deriving DecidableEq, Repr

/-- Material document from `models/Material.js`. -/
structure Material where
  id : Nat
  projectId : Nat
  name : String
  quantity : ℚ
  unit : String
  supplier : Option String
  cost : ℚ
  status : MStatus
  approvedQuantity : Option ℚ
  receivedQuantity : Option ℚ
  usedQuantity : Option ℚ
  approvedBy : Option Nat
  notes : Option String
  receivedImage : Option String
deriving DecidableEq, Repr

inductive TxnType where
  | income
  | expense
deriving DecidableEq, Repr

inductive TxnStatus where
  | pending
  | completed
  | cancelled
deriving DecidableEq, Repr

/-- Transaction document from `models/Transaction.js`. -/
structure Txn where
  projectId : Nat
  type : TxnType
  category : String
  amount : ℚ
  date : Nat
  description : Option String
  paymentMethod : Option String
  reference : Option String
  attachmentUrl : Option String
  partyName : Option String
  partyType : Option String
  workerId : Option Nat
  materialId : Option Nat
  status : TxnStatus
  createdBy : Nat
deriving DecidableEq, Repr

inductive AStatus where
  | present
  | absent
  | halfDay
deriving DecidableEq, Repr

/-- Attendance document from `models/Attendance.js`; `date` is the stored
timestamp in milliseconds. -/
structure Attendance where
  projectId : Nat
  workerId : Nat
  date : Nat
  status : AStatus
  hoursWorked : Option ℚ
  dailyWage : ℚ
  overtimeHours : ℚ
  overtimeRate : ℚ
  notes : Option String
  createdBy : Nat
deriving DecidableEq, Repr

/-- Error responses the embedded handlers can produce. -/
inductive Err where
  | notFound (msg : String)
  | forbidden (msg : String)
  | insufficientQuantity (available : ℚ)
  | badRequest (msg : String)
deriving DecidableEq, Repr

instance instDecEqExcept {ε α : Type} [DecidableEq ε] [DecidableEq α] :
    DecidableEq (Except ε α) := fun x y =>
  match x, y with
  | Except.ok a, Except.ok b =>
    if h : a = b then Decidable.isTrue (by rw [h])
    else Decidable.isFalse (fun hc => h (Except.ok.inj hc))
  | Except.error a, Except.error b =>
    if h : a = b then Decidable.isTrue (by rw [h])
    else Decidable.isFalse (fun hc => h (Except.error.inj hc))
  | Except.ok _, Except.error _ => Decidable.isFalse (fun hc => Except.noConfusion hc)
  | Except.error _, Except.ok _ => Decidable.isFalse (fun hc => Except.noConfusion hc)

/-- JS truthiness of an optional numeric field: `undefined` and `0` are falsy. -/
def numTruthy : Option ℚ → Bool
  | none => false
  | some v => decide (v ≠ 0)

/-- JS `x || d` on an optional numeric field. -/
def jsOrNum (x : Option ℚ) (d : ℚ) : ℚ :=
  match x with
  | none => d
  | some v => if v = 0 then d else v

/-- JS truthiness of an optional string field: `undefined` and the empty
string are falsy. -/
def strTruthy : Option String → Bool
  | none => false
  | some s => decide (s ≠ "")

/-- JS `x || d` on an optional string field. -/
def jsOrStr (x : Option String) (d : String) : String :=
  match x with
  | none => d
  | some s => if s = "" then d else s

/-- The notes update pattern `material.notes ? notes0 + st + notes : notes`
guarded by `if (notes)`, shared by the received and used handlers. -/
def appendNotes (old b : Option String) : Option String :=
  if strTruthy b then
    if strTruthy old then some (old.getD "" ++ "; " ++ b.getD "") else b
  else old

/-- The scattered supervisor check
`req.user.role === supervisor && proj.supervisorId?.toString() !== req.user._id.toString()`. -/
def supervisorBlocked (u : User) (p : Project) : Bool :=
  decide (u.role = Role.supervisor ∧ p.supervisorId ≠ some u.id)

/-- The pool the used handler checks against:
`material.receivedQuantity || material.quantity` (JS `||`, so a zero or
missing `receivedQuantity` falls back to `quantity`; `approvedQuantity` is
never consulted). -/
def codeAvailable (m : Material) : ℚ :=
  jsOrNum m.receivedQuantity m.quantity

/-- `material.usedQuantity || 0`. -/
def used0 (m : Material) : ℚ :=
  jsOrNum m.usedQuantity 0

/-- The available pool as the spec words it:
`receivedQuantity ?? approvedQuantity ?? quantity` (nullish coalescing, so
only a missing value falls through, a zero does not). -/
def claimAvailable (m : Material) : ℚ :=
  m.receivedQuantity.getD (m.approvedQuantity.getD m.quantity)

/-- Body of `PATCH /:id/approve`. -/
structure ApproveBody where
  approvedQuantity : Option ℚ
  notes : Option String
deriving DecidableEq, Repr

/-- `PATCH /materials/:id/approve` (routes/materials.js).  The `adminOnly`
middleware rejects non-admins; the handler then unconditionally sets the
status to approved and defaults `approvedQuantity` with JS `||`. -/
def approveMaterial (u : User) (m : Material) (b : ApproveBody) : Except Err Material :=
  if u.role ≠ Role.admin then
    Except.error (Err.forbidden "Access denied. Admin only.")
  else
    Except.ok { m with
      status := MStatus.approved
      approvedQuantity := some (jsOrNum b.approvedQuantity m.quantity)
      approvedBy := some u.id
      notes := if strTruthy b.notes then b.notes else m.notes }

/-- Body of `PATCH /:id/reject`. -/
structure RejectBody where
  notes : Option String
deriving DecidableEq, Repr

/-- `PATCH /materials/:id/reject` (routes/materials.js). -/
def rejectMaterial (u : User) (m : Material) (b : RejectBody) : Except Err Material :=
  if u.role ≠ Role.admin then
    Except.error (Err.forbidden "Access denied. Admin only.")
  else
    Except.ok { m with
      status := MStatus.rejected
      approvedBy := some u.id
      notes := if strTruthy b.notes then b.notes else m.notes }

/-- Body of `PATCH /:id/received`. -/
structure ReceiveBody where
  receivedQuantity : Option ℚ
  receivedImage : Option String
  notes : Option String
deriving DecidableEq, Repr

/-- `PATCH /materials/:id/received` (routes/materials.js): sets the status to
received, defaults `receivedQuantity` with the JS chain
`receivedQuantity || material.approvedQuantity || material.quantity`, and
creates one expense transaction of `receivedQuantity * cost` in category
materials.  `proj` is the populated `material.projectId`; `now` is the
creation date. -/
def receiveMaterial (u : User) (proj : Project) (m : Material) (b : ReceiveBody)
    (now : Nat) : Except Err (Material × Txn) :=
  if supervisorBlocked u proj then
    Except.error (Err.forbidden "Not authorized to update this material")
  else
    let rq : ℚ := jsOrNum b.receivedQuantity (jsOrNum m.approvedQuantity m.quantity)
    let m' : Material := { m with
      status := MStatus.received
      receivedQuantity := some rq
      receivedImage := if strTruthy b.receivedImage then b.receivedImage else m.receivedImage
      notes := appendNotes m.notes b.notes }
    let t : Txn := {
      projectId := m.projectId
      type := TxnType.expense
      category := "materials"
      amount := rq * m.cost
      date := now
      description := some ("Received " ++ toString rq ++ " " ++ m.unit ++ " of " ++ m.name)
      paymentMethod := none
      reference := none
      attachmentUrl := none
      partyName := m.supplier
      partyType := some "supplier"
      workerId := none
      materialId := some m.id
      status := TxnStatus.completed
      createdBy := u.id }
    Except.ok (m', t)

/-- `PATCH /materials/:id/used` (routes/materials.js): checks the remaining
pool `(receivedQuantity || quantity) - (usedQuantity || 0)`, rejects with the
insufficient-quantity response reporting that remainder when the requested
delta exceeds it, otherwise accumulates `usedQuantity` and flips the status
to used once the pool is reached.  No status precondition is checked. -/
def markUsed (u : User) (proj : Project) (m : Material) (delta : ℚ)
    (notes : Option String) : Except Err Material :=
  if supervisorBlocked u proj then
    Except.error (Err.forbidden "Not authorized to update this material")
  else if codeAvailable m - used0 m < delta then
    Except.error (Err.insufficientQuantity (codeAvailable m - used0 m))
  else
    Except.ok { m with
      usedQuantity := some (used0 m + delta)
      status := if codeAvailable m ≤ used0 m + delta then MStatus.used else m.status
      notes := appendNotes m.notes notes }

/-- The document the used handler saves on success: `usedQuantity`
accumulated, status flipped to used once the pool is reached, notes
appended. -/
def consumeResult (m : Material) (delta : ℚ) (notes : Option String) : Material :=
  { m with
    usedQuantity := some (used0 m + delta)
    status := if codeAvailable m ≤ used0 m + delta then MStatus.used else m.status
    notes := appendNotes m.notes notes }

/-- A sequence of consume requests against one material: a rejected request
leaves the document unchanged (the handler returns before mutating). -/
def runConsumes (u : User) (proj : Project) (m : Material) (ds : List ℚ) : Material :=
  ds.foldl (fun acc d =>
    match markUsed u proj acc d none with
    | Except.ok m' => m'
    | Except.error _ => acc) m

/-- Body of `POST /attendance`. -/
structure AttBody where
  date : Nat
  status : AStatus
  hoursWorked : Option ℚ
  dailyWage : Option ℚ
  overtimeHours : Option ℚ
  overtimeRate : Option ℚ
  notes : Option String
deriving DecidableEq, Repr

/-- The stored key of an attendance record. -/
def attKey (a : Attendance) : Nat × Nat × Nat :=
  (a.projectId, a.workerId, a.date)

/-- Calendar day of a millisecond timestamp. -/
def calendarDay (t : Nat) : Nat :=
  t / 86400000

/-- `POST /attendance` (routes/attendance.js): after the project and worker
lookups and the supervisor scope check, `findOne` looks for an existing
record with the same project, worker and exact `new Date(date)` value; on a
hit the request is rejected, otherwise the record is created with
`dailyWage: dailyWage || worker.dailyWage` and schema defaults of 0 for the
overtime fields. -/
def recordAttendance (u : User) (proj : Project) (w : Worker)
    (store : List Attendance) (b : AttBody) : Except Err Attendance :=
  if supervisorBlocked u proj then
    Except.error (Err.forbidden "Not authorized to add attendance to this project")
  else if store.any (fun a =>
      decide (a.projectId = proj.id ∧ a.workerId = w.id ∧ a.date = b.date)) then
    Except.error (Err.badRequest "Attendance already marked for this worker on this date")
  else
    Except.ok {
      projectId := proj.id
      workerId := w.id
      date := b.date
      status := b.status
      hoursWorked := b.hoursWorked
      dailyWage := jsOrNum b.dailyWage w.dailyWage
      overtimeHours := b.overtimeHours.getD 0
      overtimeRate := b.overtimeRate.getD 0
      notes := b.notes
      createdBy := u.id }

/-- `POST /attendance/worker-payment` (routes/attendance.js): after the
project and worker lookups and the supervisor scope check, appends one
completed expense transaction in category worker-advance (when
`paymentType === advance`) or worker-salary. -/
def payWorker (u : User) (proj : Project) (w : Worker) (amount : ℚ)
    (paymentType : String) (description : Option String)
    (paymentMethod : Option String) (now : Nat) : Except Err Txn :=
  if supervisorBlocked u proj then
    Except.error (Err.forbidden "Not authorized to make payments for this project")
  else
    Except.ok {
      projectId := proj.id
      type := TxnType.expense
      category := if paymentType = "advance" then "worker-advance" else "worker-salary"
      amount := amount
      date := now
      description := some (jsOrStr description ("Payment to " ++ w.name ++ ": " ++ paymentType))
      paymentMethod := paymentMethod
      reference := none
      attachmentUrl := none
      partyName := some w.name
      partyType := some "worker"
      workerId := some w.id
      materialId := none
      status := TxnStatus.completed
      createdBy := u.id }

/-- The `$match` stage of the worker summary aggregation
(routes/transactions.js, `GET /worker/:workerId/summary`): transactions with
the given worker, type expense, and category in
worker-salary / worker-advance. -/
def workerMatched (txns : List Txn) (wid : Nat) : List Txn :=
  txns.filter (fun t => decide (t.workerId = some wid ∧ t.type = TxnType.expense ∧
    (t.category = "worker-salary" ∨ t.category = "worker-advance")))

/-- Total of the `$group`-by-category stage for one category, with the
`find(...)?.total || 0` default. -/
def categoryTotal (txns : List Txn) (cat : String) : ℚ :=
  ((txns.filter (fun t => decide (t.category = cat))).map (·.amount)).sum

/-- `GET /transactions/worker/:workerId/summary` (routes/transactions.js):
`(totalSalary, totalAdvance)`. -/
def workerPaymentSummary (txns : List Txn) (wid : Nat) : ℚ × ℚ :=
  (categoryTotal (workerMatched txns wid) "worker-salary",
   categoryTotal (workerMatched txns wid) "worker-advance")

/-- The total as the claim words it: the sum of `amount` over all
transactions whose `workerId` matches and whose `category` matches, with no
restriction on `type`. -/
def claimWorkerTotal (txns : List Txn) (wid : Nat) (cat : String) : ℚ :=
  ((txns.filter (fun t => decide (t.workerId = some wid ∧ t.category = cat))).map (·.amount)).sum

/-- Body of `PUT /transactions/:id`.  Fields guarded by `if (field)` in the
handler use JS truthiness; `amount`, `description` and `reference` are
guarded by `!== undefined`. -/
structure TxnUpdateBody where
  type : Option TxnType
  category : Option String
  amount : Option ℚ
  date : Option Nat
  description : Option String
  paymentMethod : Option String
  reference : Option String
  attachmentUrl : Option String
deriving DecidableEq, Repr

/-- `PUT /transactions/:id` (routes/transactions.js): after the supervisor
scope check, copies every supplied field onto the stored transaction —
including `type`, `category` and `amount`. -/
def updateTransaction (u : User) (proj : Project) (t : Txn) (b : TxnUpdateBody) :
    Except Err Txn :=
  if supervisorBlocked u proj then
    Except.error (Err.forbidden "Not authorized to update this transaction")
  else
    Except.ok { t with
      type := match b.type with | some ty => ty | none => t.type
      category := if strTruthy b.category then b.category.getD "" else t.category
      amount := match b.amount with | some a => a | none => t.amount
      date := match b.date with | some d => d | none => t.date
      description := match b.description with | some s => some s | none => t.description
      paymentMethod := if strTruthy b.paymentMethod then b.paymentMethod else t.paymentMethod
      reference := match b.reference with | some s => some s | none => t.reference
      attachmentUrl := if strTruthy b.attachmentUrl then b.attachmentUrl else t.attachmentUrl }

/-- The `$match` stage of the project summary aggregation
(routes/transactions.js, `GET /summary/project`): transactions whose project
is in the caller scope. -/
def txnMatched (scope : List Nat) (txns : List Txn) : List Txn :=
  txns.filter (fun t => decide (t.projectId ∈ scope))

/-- Sum of the amounts of one project's transactions of one type. -/
def typeTotal (txns : List Txn) (pid : Nat) (ty : TxnType) : ℚ :=
  ((txns.filter (fun t => decide (t.projectId = pid ∧ t.type = ty))).map (·.amount)).sum

/-- `GET /transactions/summary/project` (routes/transactions.js), read at one
project id: the aggregation groups the matched transactions by project, so a
project appears in the output iff some matched transaction carries it; its
row is `(income, expense, income - expense)` with the `?.total || 0`
defaults. -/
def projectSummary (scope : List Nat) (txns : List Txn) (pid : Nat) :
    Option (ℚ × ℚ × ℚ) :=
  let matched := txnMatched scope txns
  if matched.any (fun t => decide (t.projectId = pid)) then
    some (typeTotal matched pid TxnType.income,
          typeTotal matched pid TxnType.expense,
          typeTotal matched pid TxnType.income - typeTotal matched pid TxnType.expense)
  else none

/-- The project scope the handlers compute: every project for an admin, the
projects with `supervisorId == principal` for a supervisor. -/
def resolveScope (u : User) (projects : List Project) : List Nat :=
  match u.role with
  | Role.admin => projects.map (·.id)
  | Role.supervisor => (projects.filter (fun p => decide (p.supervisorId = some u.id))).map (·.id)

/-- `GET /workers` (routes/workers.js).  For a supervisor the handler builds
`projectIds` as a list of `ObjectId` values and, when a `projectId` query
string is supplied, guards with `projectIds.includes(projectId)` — a strict
JS comparison of an `ObjectId` against a string.  Mongo queries, by
contrast, cast the string (embedded as `String.toNat?`). -/
def workersList (u : User) (projects : List Project) (queryProjectId : Option String)
    (workers : List Worker) : Except Err (List Worker) :=
  if u.role = Role.supervisor then
    let owned := projects.filter (fun p => decide (p.supervisorId = some u.id))
    let projectIds : List JsVal := owned.map (fun p => JsVal.objectId p.id)
    match queryProjectId with
    | some s =>
      if projectIds.any (fun v => decide (v = JsVal.str s)) then
        Except.ok (workers.filter (fun w => decide (w.projectId = s.toNat?)))
      else
        Except.error (Err.forbidden "Not authorized to view workers for this project")
    | none =>
      Except.ok (workers.filter (fun w =>
        match w.projectId with
        | some n => (owned.map (·.id)).contains n
        | none => false))
  else
    match queryProjectId with
    | some s => Except.ok (workers.filter (fun w => decide (w.projectId = s.toNat?)))
    | none => Except.ok workers

/-- `GET /workers/:id` (routes/workers.js): the per-document scope check
`worker.projectId?.supervisorId?.toString() !== req.user._id.toString()`,
with `proj?` the populated project of the worker (absent when the worker is
unassigned). -/
def workerGetById (u : User) (w : Worker) (proj? : Option Project) :
    Except Err Worker :=
  if u.role = Role.supervisor ∧
      (proj?.bind (fun p => p.supervisorId)) ≠ some u.id then
    Except.error (Err.forbidden "Not authorized to view this worker")
  else
    Except.ok w

/-! ## Concrete fixtures used by witnesses and counterexamples -/

def c1u : User := { id := 1, role := Role.admin }

def c1proj : Project := { id := 1, supervisorId := none }

def c1m : Material := {
  id := 1, projectId := 1, name := "Cement", quantity := 100, unit := "bags"
  supplier := none, cost := 5, status := MStatus.received
  approvedQuantity := some 80, receivedQuantity := some 80, usedQuantity := none
  approvedBy := some 1, notes := none, receivedImage := none }

def c1cm : Material := {
  id := 2, projectId := 1, name := "Sand", quantity := 100, unit := "loads"
  supplier := none, cost := 5, status := MStatus.received
  approvedQuantity := some 80, receivedQuantity := none, usedQuantity := some 0
  approvedBy := some 1, notes := none, receivedImage := none }

def c1cm' : Material := { c1cm with usedQuantity := some 100, status := MStatus.used }

def c4u : User := { id := 1, role := Role.admin }

def c4proj : Project := { id := 1, supervisorId := none }

def c4m : Material := {
  id := 3, projectId := 1, name := "Bricks", quantity := 50, unit := "pcs"
  supplier := none, cost := 2, status := MStatus.rejected
  approvedQuantity := none, receivedQuantity := none, usedQuantity := none
  approvedBy := none, notes := none, receivedImage := none }

def c4cm : Material := {
  id := 4, projectId := 1, name := "Steel", quantity := 40, unit := "rods"
  supplier := none, cost := 9, status := MStatus.used
  approvedQuantity := some 40, receivedQuantity := some 40, usedQuantity := some 40
  approvedBy := some 1, notes := none, receivedImage := none }

def c4cm' : Material :=
  { c4cm with
    status := MStatus.approved
    approvedQuantity := some 40
    approvedBy := some 1 }

def c5u : User := { id := 1, role := Role.admin }

def c5proj : Project := { id := 1, supervisorId := none }

def c5m2 : Material := {
  id := 5, projectId := 1, name := "Cement", quantity := 100, unit := "bags"
  supplier := none, cost := 5, status := MStatus.received
  approvedQuantity := some 80, receivedQuantity := some 80, usedQuantity := some 60
  approvedBy := some 1, notes := none, receivedImage := none }

def c5cm : Material := {
  id := 6, projectId := 1, name := "Sand", quantity := 100, unit := "loads"
  supplier := none, cost := 3, status := MStatus.received
  approvedQuantity := some 80, receivedQuantity := none, usedQuantity := some 0
  approvedBy := some 1, notes := none, receivedImage := none }

def c5cm' : Material := { c5cm with usedQuantity := some 90 }

def c2u : User := { id := 7, role := Role.supervisor }

def c2proj : Project := { id := 1, supervisorId := some 7 }

def c2w : Worker := { id := 3, name := "Asha", projectId := some 1, dailyWage := 700 }

def c3u : User := { id := 1, role := Role.admin }

def c3proj : Project := { id := 1, supervisorId := none }

def c3w : Worker := { id := 1, name := "Ravi", projectId := some 1, dailyWage := 700 }

def c3b : AttBody := {
  date := 5, status := AStatus.present, hoursWorked := none, dailyWage := none
  overtimeHours := none, overtimeRate := none, notes := none }

def c3b1 : AttBody := {
  date := 0, status := AStatus.present, hoursWorked := none, dailyWage := none
  overtimeHours := none, overtimeRate := none, notes := none }

def c3b2 : AttBody := {
  date := 3600000, status := AStatus.absent, hoursWorked := none, dailyWage := none
  overtimeHours := none, overtimeRate := none, notes := none }

def c3a1 : Attendance := {
  projectId := 1, workerId := 1, date := 0, status := AStatus.present
  hoursWorked := none, dailyWage := 700, overtimeHours := 0, overtimeRate := 0
  notes := none, createdBy := 1 }

def c3a2 : Attendance := {
  projectId := 1, workerId := 1, date := 3600000, status := AStatus.absent
  hoursWorked := none, dailyWage := 700, overtimeHours := 0, overtimeRate := 0
  notes := none, createdBy := 1 }

def c6u : User := { id := 2, role := Role.admin }

def c6proj : Project := { id := 1, supervisorId := some 9 }

def c6t : Txn := {
  projectId := 1, type := TxnType.income, category := "client-payment"
  amount := 100, date := 0, description := none, paymentMethod := none
  reference := none, attachmentUrl := none, partyName := none, partyType := none
  workerId := none, materialId := none, status := TxnStatus.completed, createdBy := 1 }

def c6b : TxnUpdateBody := {
  type := some TxnType.expense, category := none, amount := some 999, date := none
  description := none, paymentMethod := none, reference := none, attachmentUrl := none }

def c6t2 : Txn := { c6t with type := TxnType.expense, amount := 999 }

def c7scope : List Nat := [1]

def c7t1 : Txn := {
  projectId := 1, type := TxnType.income, category := "client-payment"
  amount := 50, date := 0, description := none, paymentMethod := none
  reference := none, attachmentUrl := none, partyName := none, partyType := none
  workerId := none, materialId := none, status := TxnStatus.completed, createdBy := 1 }

def c7t2 : Txn := {
  projectId := 1, type := TxnType.expense, category := "materials"
  amount := 20, date := 0, description := none, paymentMethod := none
  reference := none, attachmentUrl := none, partyName := none, partyType := none
  workerId := none, materialId := none, status := TxnStatus.completed, createdBy := 1 }

def c8u : User := { id := 1, role := Role.admin }

def c8proj : Project := { id := 1, supervisorId := none }

def c8m : Material := {
  id := 8, projectId := 1, name := "Cement", quantity := 100, unit := "bags"
  supplier := some "ACME", cost := 5, status := MStatus.approved
  approvedQuantity := some 80, receivedQuantity := none, usedQuantity := none
  approvedBy := some 1, notes := none, receivedImage := none }

def c8b : ReceiveBody := { receivedQuantity := some 80, receivedImage := none, notes := none }

def c9u : User := { id := 1, role := Role.admin }

def c9proj : Project := { id := 1, supervisorId := none }

def c9w : Worker := { id := 1, name := "Ravi", projectId := some 1, dailyWage := 700 }

def c9t : Txn := {
  projectId := 1, type := TxnType.income, category := "worker-salary"
  amount := 100, date := 0, description := none, paymentMethod := none
  reference := none, attachmentUrl := none, partyName := none, partyType := none
  workerId := some 1, materialId := none, status := TxnStatus.completed, createdBy := 1 }

def c10u : User := { id := 1, role := Role.admin }

def c10proj : Project := { id := 1, supervisorId := none }

def c10ma : Material := {
  id := 10, projectId := 1, name := "Gravel", quantity := 60, unit := "loads"
  supplier := none, cost := 4, status := MStatus.requested
  approvedQuantity := none, receivedQuantity := none, usedQuantity := none
  approvedBy := none, notes := none, receivedImage := none }

def c10m : Material := {
  id := 11, projectId := 1, name := "Cement", quantity := 100, unit := "bags"
  supplier := none, cost := 5, status := MStatus.approved
  approvedQuantity := some 80, receivedQuantity := none, usedQuantity := none
  approvedBy := some 1, notes := none, receivedImage := none }

/-! ## Helper lemmas -/

theorem jsOrNum_some_zero (x : ℚ) : jsOrNum (some x) 0 = x := by
  by_cases h : x = 0 <;> simp [jsOrNum, h]

theorem jsOrNum_zero_arg (d : ℚ) : jsOrNum (some 0) d = d := by
  simp [jsOrNum]

theorem perm_any {α : Type} (p : α → Bool) {l₁ l₂ : List α} (h : l₁.Perm l₂) :
    l₁.any p = l₂.any p := by
  rw [Bool.eq_iff_iff]
  simp only [List.any_eq_true]
  exact ⟨fun ⟨x, hx, hp⟩ => ⟨x, h.mem_iff.mp hx, hp⟩,
    fun ⟨x, hx, hp⟩ => ⟨x, h.mem_iff.mpr hx, hp⟩⟩

theorem markUsed_ok_spec (u : User) (proj : Project) (m : Material) (d : ℚ)
    (nt : Option String) (m' : Material)
    (h : markUsed u proj m d nt = Except.ok m') :
    m'.usedQuantity = some (used0 m + d) ∧ m'.receivedQuantity = m.receivedQuantity ∧
    m'.quantity = m.quantity ∧ d ≤ codeAvailable m - used0 m := by
  unfold markUsed at h
  split at h
  · simp at h
  · split at h
    · simp at h
    · rename_i hno hle
      injection h with h2
      subst h2
      exact ⟨rfl, rfl, rfl, le_of_not_lt hle⟩

theorem markUsed_ok_eq (u : User) (proj : Project) (m : Material) (d : ℚ)
    (nt : Option String) (hsup : supervisorBlocked u proj = false)
    (hle : d ≤ codeAvailable m - used0 m) :
    markUsed u proj m d nt = Except.ok (consumeResult m d nt) := by
  unfold markUsed consumeResult
  rw [hsup]
  simp [not_lt.mpr hle]

theorem approve_ok_spec (u : User) (m : Material) (b : ApproveBody)
    (hadmin : u.role = Role.admin) :
    approveMaterial u m b = Except.ok { m with
      status := MStatus.approved
      approvedQuantity := some (jsOrNum b.approvedQuantity m.quantity)
      approvedBy := some u.id
      notes := if strTruthy b.notes then b.notes else m.notes } := by
  simp [approveMaterial, hadmin]

theorem reject_ok_spec (u : User) (m : Material) (b : RejectBody)
    (hadmin : u.role = Role.admin) :
    rejectMaterial u m b = Except.ok { m with
      status := MStatus.rejected
      approvedBy := some u.id
      notes := if strTruthy b.notes then b.notes else m.notes } := by
  simp [rejectMaterial, hadmin]

theorem receive_ok_spec (u : User) (proj : Project) (m : Material) (b : ReceiveBody)
    (now : Nat) (hsup : supervisorBlocked u proj = false) :
    ∃ m' t, receiveMaterial u proj m b now = Except.ok (m', t) ∧
      m'.status = MStatus.received ∧
      m'.receivedQuantity = some (jsOrNum b.receivedQuantity (jsOrNum m.approvedQuantity m.quantity)) ∧
      m'.cost = m.cost ∧
      t.amount = jsOrNum b.receivedQuantity (jsOrNum m.approvedQuantity m.quantity) * m.cost ∧
      t.type = TxnType.expense ∧ t.category = "materials" ∧ t.projectId = m.projectId := by
  unfold receiveMaterial
  rw [hsup]
  exact ⟨_, _, rfl, rfl, rfl, rfl, rfl, rfl, rfl, rfl⟩

/-! ## C1 — usedQuantity bounds across consume sequences -/

/-- Claim C1 (amended): across any sequence of consume requests with
nonnegative deltas, starting from a material whose `usedQuantity || 0` lies
in `[0, receivedQuantity || quantity]`, the accumulated `usedQuantity` stays
in `[0, receivedQuantity || quantity]`, never decreases, and the pool itself
is unchanged.  The pool the code enforces is `receivedQuantity || quantity`,
not the spec chain `receivedQuantity ?? approvedQuantity ?? quantity`. -/
theorem c1_used_quantity_bounds (u : User) (proj : Project) (m : Material)
    (ds : List ℚ) (hds : ∀ d ∈ ds, 0 ≤ d) (h0 : 0 ≤ used0 m)
    (h1 : used0 m ≤ codeAvailable m) :
    0 ≤ used0 (runConsumes u proj m ds) ∧
    used0 (runConsumes u proj m ds) ≤ codeAvailable (runConsumes u proj m ds) ∧
    used0 m ≤ used0 (runConsumes u proj m ds) ∧
    codeAvailable (runConsumes u proj m ds) = codeAvailable m := by
  induction ds generalizing m with
  | nil => exact ⟨h0, by simpa [runConsumes] using h1, le_refl _, rfl⟩
  | cons d ds ih =>
    have hd : 0 ≤ d := hds d (by simp)
    have hds' : ∀ x ∈ ds, 0 ≤ x := fun x hx => hds x (by simp [hx])
    have hcons : runConsumes u proj m (d :: ds) =
        runConsumes u proj (match markUsed u proj m d none with
          | Except.ok m₁ => m₁
          | Except.error _ => m) ds := rfl
    rw [hcons]
    cases hmu : markUsed u proj m d none with
    | error e => simpa using ih m hds' h0 h1
    | ok m₁ =>
      obtain ⟨hu, hr, hq, hle⟩ := markUsed_ok_spec u proj m d none m₁ hmu
      have hused : used0 m₁ = used0 m + d := by
        simp [used0, hu, jsOrNum_some_zero]
      have havail : codeAvailable m₁ = codeAvailable m := by
        simp [codeAvailable, hr, hq]
      have h0' : 0 ≤ used0 m₁ := by rw [hused]; linarith
      have h1' : used0 m₁ ≤ codeAvailable m₁ := by rw [hused, havail]; linarith
      obtain ⟨g0, g1, g2, g3⟩ := ih m₁ hds' h0' h1'
      refine ⟨by simpa using g0, by simpa using g1, ?_, by simpa [havail] using g3⟩
      have : used0 m₁ ≤ used0 (runConsumes u proj m₁ ds) := g2
      simp only []
      rw [hused] at this
      linarith

/-- Witness for C1: two consume requests of 30 against a pool of 80. -/
theorem c1_used_quantity_bounds_witness :
    (∀ d ∈ ([30, 30] : List ℚ), 0 ≤ d) ∧ 0 ≤ used0 c1m ∧
    used0 c1m ≤ codeAvailable c1m ∧
    (0 ≤ used0 (runConsumes c1u c1proj c1m [30, 30]) ∧
     used0 (runConsumes c1u c1proj c1m [30, 30]) ≤
       codeAvailable (runConsumes c1u c1proj c1m [30, 30]) ∧
     used0 c1m ≤ used0 (runConsumes c1u c1proj c1m [30, 30]) ∧
     codeAvailable (runConsumes c1u c1proj c1m [30, 30]) = codeAvailable c1m) :=
  ⟨by norm_num, by norm_num [used0, jsOrNum, c1m],
    by norm_num [used0, codeAvailable, jsOrNum, c1m],
    c1_used_quantity_bounds c1u c1proj c1m [30, 30] (by norm_num)
      (by norm_num [used0, jsOrNum, c1m])
      (by norm_num [used0, codeAvailable, jsOrNum, c1m])⟩

/-- Counterexample for C1 as stated: for a material with `quantity = 100`,
`approvedQuantity = 80` and no `receivedQuantity`, the service accepts a
consume of 100, leaving `usedQuantity = 100`, which exceeds the claimed
bound `receivedQuantity ?? approvedQuantity ?? quantity = 80` — the code
never consults `approvedQuantity`. -/
theorem c1_counterexample :
    markUsed c1u c1proj c1cm 100 none = Except.ok c1cm' ∧
    used0 c1cm' = 100 ∧ claimAvailable c1cm' = 80 ∧
    claimAvailable c1cm' < used0 c1cm' := by
  have hs : supervisorBlocked c1u c1proj = false := by decide
  refine ⟨?_, ?_, ?_, ?_⟩ <;>
    norm_num [markUsed, hs, codeAvailable, used0, claimAvailable,
      jsOrNum, appendNotes, strTruthy, c1cm, c1cm']

/-! ## C4 — material transitions are not state-guarded -/

/-- Claim C4 (amended): none of the material transitions checks the current
status.  Approve, reject and receive succeed from every state (for an
authorized caller), unconditionally overwriting the status with their
target; consume is guarded only by the quantity check, never by the state.
No transition fails with a Conflict on state grounds. -/
theorem c4_transitions_unguarded (u : User) (proj : Project) (m : Material)
    (ab : ApproveBody) (rb : RejectBody) (vb : ReceiveBody) (now : Nat)
    (d : ℚ) (nt : Option String)
    (hadmin : u.role = Role.admin) (hsup : supervisorBlocked u proj = false) :
    (∃ m₁, approveMaterial u m ab = Except.ok m₁ ∧ m₁.status = MStatus.approved) ∧
    (∃ m₂, rejectMaterial u m rb = Except.ok m₂ ∧ m₂.status = MStatus.rejected) ∧
    (∃ p, receiveMaterial u proj m vb now = Except.ok p ∧ p.1.status = MStatus.received) ∧
    (d ≤ codeAvailable m - used0 m → ∃ m₄, markUsed u proj m d nt = Except.ok m₄) := by
  refine ⟨⟨_, approve_ok_spec u m ab hadmin, rfl⟩,
    ⟨_, reject_ok_spec u m rb hadmin, rfl⟩, ?_, ?_⟩
  · obtain ⟨m', t, heq, hst, _⟩ := receive_ok_spec u proj m vb now hsup
    exact ⟨(m', t), heq, hst⟩
  · intro hd
    exact ⟨consumeResult m d nt, markUsed_ok_eq u proj m d nt hsup hd⟩

/-- Witness for C4: every transition is accepted on a material sitting in the
rejected state. -/
theorem c4_transitions_unguarded_witness :
    c4u.role = Role.admin ∧ supervisorBlocked c4u c4proj = false ∧
    ((∃ m₁, approveMaterial c4u c4m ⟨none, none⟩ = Except.ok m₁ ∧
        m₁.status = MStatus.approved) ∧
     (∃ m₂, rejectMaterial c4u c4m ⟨none⟩ = Except.ok m₂ ∧
        m₂.status = MStatus.rejected) ∧
     (∃ p, receiveMaterial c4u c4proj c4m ⟨none, none, none⟩ 0 = Except.ok p ∧
        p.1.status = MStatus.received) ∧
     ((10 : ℚ) ≤ codeAvailable c4m - used0 c4m →
        ∃ m₄, markUsed c4u c4proj c4m 10 none = Except.ok m₄)) :=
  ⟨rfl, by decide,
    c4_transitions_unguarded c4u c4proj c4m ⟨none, none⟩ ⟨none⟩ ⟨none, none, none⟩ 0
      10 none rfl (by decide)⟩

/-- Counterexample for C4 as stated: approving a material that sits in the
terminal used state (not in requested) does not fail with Conflict and does
not leave the material unchanged — it succeeds and rewrites the status to
approved. -/
theorem c4_counterexample :
    approveMaterial c4u c4cm ⟨none, none⟩ = Except.ok c4cm' ∧
    c4cm'.status = MStatus.approved ∧ c4cm.status = MStatus.used ∧
    c4cm' ≠ c4cm := by
  refine ⟨?_, rfl, rfl, ?_⟩
  · norm_num [approveMaterial, c4u, c4cm, c4cm', jsOrNum, strTruthy]
  · intro h
    exact absurd (congrArg Material.status h) (by simp [c4cm, c4cm'])

/-! ## C5 — the consume quantity guard -/

/-- Claim C5 (amended): `consume(delta)` fails with the insufficient-quantity
Conflict, reporting the remainder `available - usedQuantity`, iff
`delta > available - usedQuantity`, where the pool the code uses is
`available = receivedQuantity || quantity` (JS `||`; `approvedQuantity` is
never consulted, unlike the claimed `??` chain); on success `usedQuantity`
grows by exactly `delta` and the status becomes used exactly when the pool
is reached. -/
theorem c5_consume_guard (u : User) (proj : Project) (m : Material) (d : ℚ)
    (nt : Option String) (hsup : supervisorBlocked u proj = false) :
    (codeAvailable m - used0 m < d →
      markUsed u proj m d nt =
        Except.error (Err.insufficientQuantity (codeAvailable m - used0 m))) ∧
    (d ≤ codeAvailable m - used0 m →
      ∃ m', markUsed u proj m d nt = Except.ok m' ∧
        used0 m' = used0 m + d ∧
        m'.receivedQuantity = m.receivedQuantity ∧ m'.quantity = m.quantity ∧
        (codeAvailable m ≤ used0 m + d → m'.status = MStatus.used) ∧
        (used0 m + d < codeAvailable m → m'.status = m.status)) := by
  constructor
  · intro hlt
    unfold markUsed
    rw [hsup]
    simp [hlt]
  · intro hle
    refine ⟨consumeResult m d nt, markUsed_ok_eq u proj m d nt hsup hle, ?_, rfl, rfl, ?_, ?_⟩
    · simp [consumeResult, used0, jsOrNum_some_zero]
    · intro hge
      simp [consumeResult, if_pos hge]
    · intro hlt2
      simp [consumeResult, if_neg (not_le.mpr hlt2)]

/-- Witness for C5: after 60 of a received pool of 80 are used, a consume of
25 is rejected reporting the remaining 20. -/
theorem c5_consume_guard_witness :
    supervisorBlocked c5u c5proj = false ∧
    codeAvailable c5m2 - used0 c5m2 = 20 ∧
    ((codeAvailable c5m2 - used0 c5m2 < 25 →
      markUsed c5u c5proj c5m2 25 none =
        Except.error (Err.insufficientQuantity (codeAvailable c5m2 - used0 c5m2))) ∧
    ((25 : ℚ) ≤ codeAvailable c5m2 - used0 c5m2 →
      ∃ m', markUsed c5u c5proj c5m2 25 none = Except.ok m' ∧
        used0 m' = used0 c5m2 + 25 ∧
        m'.receivedQuantity = c5m2.receivedQuantity ∧ m'.quantity = c5m2.quantity ∧
        (codeAvailable c5m2 ≤ used0 c5m2 + 25 → m'.status = MStatus.used) ∧
        (used0 c5m2 + 25 < codeAvailable c5m2 → m'.status = c5m2.status))) :=
  ⟨by decide, by norm_num [codeAvailable, used0, jsOrNum, c5m2],
    c5_consume_guard c5u c5proj c5m2 25 none (by decide)⟩

/-- Counterexample for C5 as stated: with `quantity = 100`,
`approvedQuantity = 80` and no `receivedQuantity`, the claimed pool is 80,
so `consume(90)` should fail — but the code compares against
`receivedQuantity || quantity = 100` and accepts it. -/
theorem c5_counterexample :
    claimAvailable c5cm - used0 c5cm < 90 ∧
    markUsed c5u c5proj c5cm 90 none = Except.ok c5cm' := by
  have hs : supervisorBlocked c5u c5proj = false := by decide
  constructor
  · norm_num [claimAvailable, used0, jsOrNum, c5cm]
  · norm_num [markUsed, hs, codeAvailable, used0, jsOrNum, appendNotes, strTruthy,
      c5cm, c5cm']

/-! ## C6 — which transaction fields an update can change -/

/-- Claim C6 (amended): the transaction update leaves `projectId` — and the
other identity fields `workerId`, `materialId`, `partyName`, `partyType`,
`status`, `createdBy` — unchanged, but it freely overwrites the financial
fields `type`, `category` and `amount` whenever the request supplies them;
only `projectId` among the claimed fixed fields is actually fixed. -/
theorem c6_update_frame (u : User) (proj : Project) (t : Txn) (b : TxnUpdateBody)
    (t' : Txn) (h : updateTransaction u proj t b = Except.ok t') :
    t'.projectId = t.projectId ∧ t'.workerId = t.workerId ∧
    t'.materialId = t.materialId ∧ t'.partyName = t.partyName ∧
    t'.partyType = t.partyType ∧ t'.status = t.status ∧
    t'.createdBy = t.createdBy := by
  unfold updateTransaction at h
  split at h
  · simp at h
  · injection h with h2
    subst h2
    exact ⟨rfl, rfl, rfl, rfl, rfl, rfl, rfl⟩

/-- Witness for C6: a concrete update that succeeds. -/
theorem c6_update_frame_witness :
    updateTransaction c6u c6proj c6t c6b = Except.ok c6t2 ∧
    (c6t2.projectId = c6t.projectId ∧ c6t2.workerId = c6t.workerId ∧
     c6t2.materialId = c6t.materialId ∧ c6t2.partyName = c6t.partyName ∧
     c6t2.partyType = c6t.partyType ∧ c6t2.status = c6t.status ∧
     c6t2.createdBy = c6t.createdBy) := by
  have hs : supervisorBlocked c6u c6proj = false := by decide
  have h : updateTransaction c6u c6proj c6t c6b = Except.ok c6t2 := by
    norm_num [updateTransaction, hs, strTruthy, c6t, c6b, c6t2]
  exact ⟨h, c6_update_frame c6u c6proj c6t c6b c6t2 h⟩

/-- Counterexample for C6 as stated: a PUT supplying `type` and `amount`
changes both financial fields of an existing transaction. -/
theorem c6_counterexample :
    updateTransaction c6u c6proj c6t c6b = Except.ok c6t2 ∧
    c6t2.amount ≠ c6t.amount ∧ c6t2.type ≠ c6t.type := by
  have hs : supervisorBlocked c6u c6proj = false := by decide
  refine ⟨?_, ?_, ?_⟩
  · norm_num [updateTransaction, hs, strTruthy, c6t, c6b, c6t2]
  · norm_num [c6t, c6t2]
  · simp [c6t, c6t2]

/-! ## C8 — receiving a material emits one expense transaction -/

/-- Claim C8 (confirmed): every successful receive creates exactly one new
transaction — the handler constructs exactly one — for the material's
project, with type expense, category materials, and amount equal to the
resulting `receivedQuantity` times the material's cost. -/
theorem c8_receive_creates_expense (u : User) (proj : Project) (m : Material)
    (b : ReceiveBody) (now : Nat) (hsup : supervisorBlocked u proj = false) :
    ∃ q m' t, receiveMaterial u proj m b now = Except.ok (m', t) ∧
      m'.receivedQuantity = some q ∧ t.amount = q * m.cost ∧
      t.type = TxnType.expense ∧ t.category = "materials" ∧
      t.projectId = m.projectId := by
  obtain ⟨m', t, heq, _, hrq, _, hamt, hty, hcat, hpid⟩ :=
    receive_ok_spec u proj m b now hsup
  exact ⟨_, m', t, heq, hrq, hamt, hty, hcat, hpid⟩

/-- Witness for C8, the spec scenario: quantity 100 approved to 80, received
80 at cost 5; the emitted transaction's amount evaluates to 400. -/
theorem c8_receive_creates_expense_witness :
    supervisorBlocked c8u c8proj = false ∧
    (∃ q m' t, receiveMaterial c8u c8proj c8m c8b 0 = Except.ok (m', t) ∧
      m'.receivedQuantity = some q ∧ t.amount = q * c8m.cost ∧
      t.type = TxnType.expense ∧ t.category = "materials" ∧
      t.projectId = c8m.projectId) ∧
    jsOrNum c8b.receivedQuantity (jsOrNum c8m.approvedQuantity c8m.quantity) * c8m.cost = 400 :=
  ⟨by decide, c8_receive_creates_expense c8u c8proj c8m c8b 0 (by decide),
    by norm_num [jsOrNum, c8b, c8m]⟩

/-! ## C10 — an explicit zero quantity is treated as absent -/

/-- Claim C10 (confirmed): because the handlers default with JS `||`, an
explicitly supplied 0 is falsy: approve with `approvedQuantity = 0` stores
the requested quantity, and receive with `receivedQuantity = 0` stores
`approvedQuantity || quantity`. -/
theorem c10_zero_treated_absent (u : User) (m : Material) (nts : Option String)
    (u2 : User) (proj : Project) (m2 : Material) (img nts2 : Option String)
    (now : Nat) (hadmin : u.role = Role.admin)
    (hsup : supervisorBlocked u2 proj = false) :
    (∃ m', approveMaterial u m ⟨some 0, nts⟩ = Except.ok m' ∧
       m'.approvedQuantity = some m.quantity) ∧
    (∃ m' t, receiveMaterial u2 proj m2 ⟨some 0, img, nts2⟩ now = Except.ok (m', t) ∧
       m'.receivedQuantity = some (jsOrNum m2.approvedQuantity m2.quantity)) := by
  constructor
  · exact ⟨_, approve_ok_spec u m ⟨some 0, nts⟩ hadmin, by simp [jsOrNum_zero_arg]⟩
  · obtain ⟨m', t, heq, _, hrq, _, _, _, _, _⟩ :=
      receive_ok_spec u2 proj m2 ⟨some 0, img, nts2⟩ now hsup
    refine ⟨m', t, heq, ?_⟩
    rw [hrq, jsOrNum_zero_arg]

/-- Witness for C10: approving with 0 stores 60 (the requested quantity);
receiving with 0 stores 80 (the approved quantity). -/
theorem c10_zero_treated_absent_witness :
    c10u.role = Role.admin ∧ supervisorBlocked c10u c10proj = false ∧
    ((∃ m', approveMaterial c10u c10ma ⟨some 0, none⟩ = Except.ok m' ∧
       m'.approvedQuantity = some c10ma.quantity) ∧
    (∃ m' t, receiveMaterial c10u c10proj c10m ⟨some 0, none, none⟩ 0 = Except.ok (m', t) ∧
       m'.receivedQuantity = some (jsOrNum c10m.approvedQuantity c10m.quantity))) ∧
    jsOrNum c10m.approvedQuantity c10m.quantity = 80 :=
  ⟨rfl, by decide,
    c10_zero_treated_absent c10u c10ma none c10u c10proj c10m none none 0 rfl (by decide),
    by norm_num [jsOrNum, c10m]⟩

/-! ## C3 — attendance duplicate check -/

/-- Claim C3 (amended): `recordAttendance` fails with the duplicate Conflict
iff a stored record matches the same `(projectId, workerId, date)` at exact
timestamp equality — not calendar-day granularity — and regardless of the
status; every accepted record carries that key, it differs from every stored
key, so key-distinctness of the store is preserved. -/
theorem c3_attendance_unique (u : User) (proj : Project) (w : Worker)
    (store : List Attendance) (b : AttBody)
    (hsup : supervisorBlocked u proj = false) :
    (recordAttendance u proj w store b =
        Except.error (Err.badRequest "Attendance already marked for this worker on this date")
      ↔ ∃ a ∈ store, a.projectId = proj.id ∧ a.workerId = w.id ∧ a.date = b.date) ∧
    (∀ a', recordAttendance u proj w store b = Except.ok a' →
      attKey a' = (proj.id, w.id, b.date) ∧
      (∀ a ∈ store, attKey a ≠ attKey a') ∧
      (store.Pairwise (fun x y => attKey x ≠ attKey y) →
        (a' :: store).Pairwise (fun x y => attKey x ≠ attKey y))) := by
  unfold recordAttendance
  rw [hsup]
  simp only [Bool.false_eq_true, if_false]
  by_cases hdup : store.any (fun a =>
      decide (a.projectId = proj.id ∧ a.workerId = w.id ∧ a.date = b.date)) = true
  · rw [if_pos hdup]
    simp only [List.any_eq_true, decide_eq_true_eq] at hdup
    refine ⟨iff_of_true rfl hdup, fun a' h => Except.noConfusion h⟩
  · rw [if_neg hdup]
    simp only [List.any_eq_true, decide_eq_true_eq, not_exists, not_and] at hdup
    constructor
    · exact iff_of_false (fun h => Except.noConfusion h)
        (fun ⟨a, ha, h1, h2, h3⟩ => hdup a ha h1 h2 h3)
    · intro a' h
      injection h with h2
      subst h2
      refine ⟨rfl, ?_, ?_⟩
      · intro a ha heq
        simp only [attKey, Prod.mk.injEq] at heq
        exact hdup a ha heq.1 heq.2.1 heq.2.2
      · intro hpw
        refine List.Pairwise.cons ?_ hpw
        intro a ha heq
        simp only [attKey, Prod.mk.injEq] at heq
        exact hdup a ha heq.1.symm heq.2.1.symm heq.2.2.symm

/-- Witness for C3: recording into an empty store succeeds. -/
theorem c3_attendance_unique_witness :
    supervisorBlocked c3u c3proj = false ∧
    ((recordAttendance c3u c3proj c3w [] c3b =
        Except.error (Err.badRequest "Attendance already marked for this worker on this date")
      ↔ ∃ a ∈ ([] : List Attendance), a.projectId = c3proj.id ∧
          a.workerId = c3w.id ∧ a.date = c3b.date) ∧
    (∀ a', recordAttendance c3u c3proj c3w [] c3b = Except.ok a' →
      attKey a' = (c3proj.id, c3w.id, c3b.date) ∧
      (∀ a ∈ ([] : List Attendance), attKey a ≠ attKey a') ∧
      (([] : List Attendance).Pairwise (fun x y => attKey x ≠ attKey y) →
        (a' :: ([] : List Attendance)).Pairwise (fun x y => attKey x ≠ attKey y)))) :=
  ⟨by decide, c3_attendance_unique c3u c3proj c3w [] c3b (by decide)⟩

/-- Counterexample for C3 as stated: two records for the same project,
worker and calendar day — midnight and 01:00 of day 0 — are both accepted,
because the duplicate lookup compares the exact timestamp, not the day. -/
theorem c3_counterexample :
    recordAttendance c3u c3proj c3w [] c3b1 = Except.ok c3a1 ∧
    recordAttendance c3u c3proj c3w [c3a1] c3b2 = Except.ok c3a2 ∧
    c3a1.projectId = c3a2.projectId ∧ c3a1.workerId = c3a2.workerId ∧
    calendarDay c3a1.date = calendarDay c3a2.date ∧ c3a1.date ≠ c3a2.date := by
  refine ⟨?_, ?_, rfl, rfl, by decide, by decide⟩ <;>
    (norm_num [recordAttendance, supervisorBlocked, jsOrNum, c3u, c3proj, c3w,
      c3b1, c3b2, c3a1, c3a2]
     exact fun h => Role.noConfusion h)

/-! ## C2 — supervisor scoping on worker reads -/

/-- Claim C2, evaluated at the failing input: a supervisor who owns project 1
asks for the worker list filtered to project 1 — in scope and with a query
string that casts to the owned project id — yet the handler answers
Forbidden, because `projectIds.includes(projectId)` compares `ObjectId`
values with a string and never matches.  The by-id read of the same worker
is allowed, as the claim expects. -/
theorem c2_workers_list_code_bug :
    resolveScope c2u [c2proj] = [1] ∧
    JsVal.objectId c2proj.id ≠ JsVal.str "1" ∧
    workersList c2u [c2proj] (some "1") [c2w] =
      Except.error (Err.forbidden "Not authorized to view workers for this project") ∧
    workerGetById c2u c2w (some c2proj) = Except.ok c2w := by
  refine ⟨by decide, by decide, by decide, rfl⟩

/-! ## C9 — worker payment summary and payWorker -/

theorem categoryTotal_workerMatched (txns : List Txn) (wid : Nat) (cat : String)
    (hcat : cat = "worker-salary" ∨ cat = "worker-advance") :
    categoryTotal (workerMatched txns wid) cat =
      ((txns.filter (fun t => decide (t.workerId = some wid ∧ t.type = TxnType.expense ∧
          t.category = cat))).map (·.amount)).sum := by
  unfold categoryTotal workerMatched
  rw [List.filter_filter]
  refine congrArg List.sum (congrArg (List.map (fun t : Txn => t.amount)) ?_)
  apply List.filter_congr
  intro t _
  by_cases h1 : t.workerId = some wid <;> by_cases h2 : t.type = TxnType.expense <;>
    by_cases h3 : t.category = cat <;> rcases hcat with hc | hc <;> subst hc <;>
    simp [h1, h2, h3]

/-- Claim C9 (amended): `totalSalary` and `totalAdvance` are the sums of
`amount` over the transactions whose `workerId` matches, whose `type` is
expense — a restriction the aggregation applies but the claim omits — and
whose category is worker-salary resp. worker-advance; and an advance
payment of `amount` appends a worker-advance expense transaction that
raises the worker's `totalAdvance` by exactly `amount`. -/
theorem c9_worker_payment_summary (txns : List Txn) (u : User) (proj : Project)
    (w : Worker) (amount : ℚ) (desc pm : Option String) (now : Nat)
    (hsup : supervisorBlocked u proj = false) :
    (workerPaymentSummary txns w.id).1 =
      ((txns.filter (fun t => decide (t.workerId = some w.id ∧ t.type = TxnType.expense ∧
          t.category = "worker-salary"))).map (·.amount)).sum ∧
    (workerPaymentSummary txns w.id).2 =
      ((txns.filter (fun t => decide (t.workerId = some w.id ∧ t.type = TxnType.expense ∧
          t.category = "worker-advance"))).map (·.amount)).sum ∧
    ∃ t, payWorker u proj w amount "advance" desc pm now = Except.ok t ∧
      t.category = "worker-advance" ∧ t.workerId = some w.id ∧
      (workerPaymentSummary (txns ++ [t]) w.id).2 =
        (workerPaymentSummary txns w.id).2 + amount := by
  refine ⟨categoryTotal_workerMatched txns w.id _ (Or.inl rfl),
    categoryTotal_workerMatched txns w.id _ (Or.inr rfl), ?_⟩
  unfold payWorker
  rw [hsup]
  simp only [Bool.false_eq_true, if_false]
  refine ⟨_, rfl, ?_, rfl, ?_⟩
  · simp
  · simp only [workerPaymentSummary]
    rw [categoryTotal_workerMatched _ w.id _ (Or.inr rfl),
      categoryTotal_workerMatched txns w.id _ (Or.inr rfl),
      List.filter_append, List.map_append, List.sum_append]
    simp

/-- Witness for C9: an advance payment of 500 against an empty ledger. -/
theorem c9_worker_payment_summary_witness :
    supervisorBlocked c9u c9proj = false ∧
    ((workerPaymentSummary [] c9w.id).1 =
      ((([] : List Txn).filter (fun t => decide (t.workerId = some c9w.id ∧
          t.type = TxnType.expense ∧
          t.category = "worker-salary"))).map (·.amount)).sum ∧
    (workerPaymentSummary [] c9w.id).2 =
      ((([] : List Txn).filter (fun t => decide (t.workerId = some c9w.id ∧
          t.type = TxnType.expense ∧
          t.category = "worker-advance"))).map (·.amount)).sum ∧
    ∃ t, payWorker c9u c9proj c9w 500 "advance" none none 0 = Except.ok t ∧
      t.category = "worker-advance" ∧ t.workerId = some c9w.id ∧
      (workerPaymentSummary ([] ++ [t]) c9w.id).2 =
        (workerPaymentSummary [] c9w.id).2 + 500) :=
  ⟨by decide, c9_worker_payment_summary [] c9u c9proj c9w 500 none none 0 (by decide)⟩

/-- Counterexample for C9 as stated: an income transaction in category
worker-salary for the worker counts toward the claimed total (100) but the
handler's aggregation, which also filters on type expense, reports 0. -/
theorem c9_counterexample :
    claimWorkerTotal [c9t] 1 "worker-salary" = 100 ∧
    workerPaymentSummary [c9t] 1 = (0, 0) := by
  constructor
  · norm_num [claimWorkerTotal, c9t]
  · have h : workerMatched [c9t] 1 = [] := by
      simp [workerMatched, c9t]
    simp [workerPaymentSummary, h, categoryTotal, Prod.ext_iff]

/-! ## C7 — project transaction summary -/

theorem typeTotal_txnMatched (scope : List Nat) (txns : List Txn) (pid : Nat)
    (ty : TxnType) (hmem : pid ∈ scope) :
    typeTotal (txnMatched scope txns) pid ty = typeTotal txns pid ty := by
  unfold typeTotal txnMatched
  rw [List.filter_filter]
  refine congrArg List.sum (congrArg (List.map (fun t : Txn => t.amount)) ?_)
  apply List.filter_congr
  intro t _
  by_cases hp : t.projectId = pid <;> simp [hp, hmem]

theorem typeTotal_perm (pid : Nat) (ty : TxnType) {l₁ l₂ : List Txn}
    (h : l₁.Perm l₂) : typeTotal l₁ pid ty = typeTotal l₂ pid ty :=
  ((h.filter _).map _).sum_eq

/-- Claim C7 (amended): for every project in scope that has at least one
transaction, the summary row is `(income, expense, income - expense)` with
the totals summed over all of that project's transactions, and the result
is invariant under reordering of the transaction list; but a project in
scope with no transactions is absent from the result — the aggregation
yields no zero row for it. -/
theorem c7_project_summary (scope : List Nat) (txns : List Txn) (pid : Nat)
    (hmem : pid ∈ scope) (hex : ∃ t ∈ txns, t.projectId = pid) :
    projectSummary scope txns pid =
      some (typeTotal txns pid TxnType.income, typeTotal txns pid TxnType.expense,
        typeTotal txns pid TxnType.income - typeTotal txns pid TxnType.expense) ∧
    ∀ txns₂, txns.Perm txns₂ →
      projectSummary scope txns pid = projectSummary scope txns₂ pid := by
  constructor
  · have hany : (txnMatched scope txns).any (fun t => decide (t.projectId = pid)) = true := by
      simp only [List.any_eq_true, decide_eq_true_eq]
      obtain ⟨t, ht, hpt⟩ := hex
      refine ⟨t, ?_, hpt⟩
      simp [txnMatched, List.mem_filter, ht, hpt, hmem]
    simp only [projectSummary]
    rw [hany]
    simp only [if_true]
    rw [typeTotal_txnMatched scope txns pid TxnType.income hmem,
      typeTotal_txnMatched scope txns pid TxnType.expense hmem]
  · intro txns₂ hperm
    have hm : (txnMatched scope txns).Perm (txnMatched scope txns₂) := hperm.filter _
    simp only [projectSummary]
    rw [perm_any (fun t => decide (t.projectId = pid)) hm,
      typeTotal_perm pid TxnType.income hm, typeTotal_perm pid TxnType.expense hm]

/-- Witness for C7: a scope holding project 1 with one income of 50 and one
expense of 20. -/
theorem c7_project_summary_witness :
    (1 ∈ c7scope) ∧ (∃ t ∈ [c7t1, c7t2], t.projectId = 1) ∧
    (projectSummary c7scope [c7t1, c7t2] 1 =
      some (typeTotal [c7t1, c7t2] 1 TxnType.income,
        typeTotal [c7t1, c7t2] 1 TxnType.expense,
        typeTotal [c7t1, c7t2] 1 TxnType.income -
          typeTotal [c7t1, c7t2] 1 TxnType.expense) ∧
     ∀ txns₂, ([c7t1, c7t2] : List Txn).Perm txns₂ →
       projectSummary c7scope [c7t1, c7t2] 1 = projectSummary c7scope txns₂ 1) :=
  ⟨by decide, by decide,
    c7_project_summary c7scope [c7t1, c7t2] 1 (by decide) (by decide)⟩

/-- Counterexample for C7 as stated: project 5 is in scope but has no
transactions; the summary contains no row for it at all, rather than the
claimed zero row. -/
theorem c7_counterexample :
    projectSummary [5] ([] : List Txn) 5 = none ∧
    projectSummary [5] ([] : List Txn) 5 ≠ some (0, 0, 0) := by
  refine ⟨rfl, by simp [projectSummary, txnMatched]⟩

end Dhanya
